import Mathlib

/-!
Verification development for the ThesisWeb repository: a browser code
sandbox (client orchestrator in `devratedraft/src/App.jsx`) and an
execution relay (`devratebe/server.js`) that forwards code to the JDoodle
execution provider.

The handler of `POST /api/execute` and the run logic of the client are
shallowly embedded below; machine-checked theorems settle the frozen
claims about them.
-/

/-- A minimal JSON value model, covering the shapes the relay produces
and passes through. -/
inductive Json where
  | str (s : String)
  | num (n : Int)
  | bool (b : Bool)
  | null
  | arr (xs : List Json)
  | obj (fields : List (String × Json))

/-- Look up a top-level field of a JSON object. -/
def jsonLookup (j : Json) (key : String) : Option Json :=
  match j with
  | .obj fields => fields.lookup key
  | _ => none

/-- Look up a top-level string field of a JSON object. -/
def jsonFieldStr (j : Json) (key : String) : Option String :=
  match jsonLookup j key with
  | some (.str s) => some s
  | _ => none

/-- Whether `needle` occurs as a contiguous substring of `haystack`. -/
def strContains (haystack needle : String) : Prop :=
  needle.toList <:+: haystack.toList

instance (h n : String) : Decidable (strContains h n) :=
  List.decidableInfix n.toList h.toList

/-! ## Execution Relay (devratebe/server.js) -/

/-- Server-side environment configuration: `JDOODLE_CLIENT_ID` and
`JDOODLE_CLIENT_SECRET` (server.js lines 14-15). -/
structure Env where
  clientId : String
  clientSecret : String

/-- The payload the relay builds for the upstream provider
(`executionPayload`, server.js lines 34-41). -/
structure ExecPayload where
  clientId : String
  clientSecret : String
  script : String
  language : String
  versionIndex : String
  stdin : String
deriving DecidableEq

/-- server.js lines 34-41: combine the caller-supplied script/language
with server-held credentials, the fixed default version selector "0" and
empty stdin. -/
def mkExecutionPayload (env : Env) (script language : String) : ExecPayload :=
  { clientId := env.clientId
    clientSecret := env.clientSecret
    script := script
    language := language
    versionIndex := "0"
    stdin := "" }

/-- What the single upstream `fetch` call can come back with: a
transport-level failure (the promise rejects), or an HTTP response with a
status, a raw text body, and the result of parsing that body as JSON
(`none` models `.json()` throwing on a malformed body). -/
inductive UpstreamOutcome where
  | netError
  | got (status : Nat) (rawBody : String) (parsed : Option Json)

/-- The `ok` flag of a fetch `Response`: status in the 200-299 range. -/
def fetchOk (status : Nat) : Bool :=
  200 ≤ status && status ≤ 299

/-- A JS value bound by `const { script, language } = req.body` is falsy
when the field is absent or the empty string (server.js line 27). -/
def isFalsy : Option String → Bool
  | none => true
  | some s => s == ""

/-- server.js line 28: the 400 validation response body. -/
def validationBody : Json :=
  Json.obj [("error", Json.str "Missing code or language in request.")]

/-- server.js line 80: the 500 internal-error response body, a fixed
generic message carrying no detail of the underlying failure. -/
def internalErrorBody : Json :=
  Json.obj [("error", Json.str "Internal server error while executing code.")]

/-- server.js lines 66-70: the 502 body for a non-ok upstream status.
`detail` interpolates the upstream status code; the raw upstream body
goes into the `jdoodleError` field. -/
def upstreamErrorBody (status : Nat) (rawBody : String) : Json :=
  Json.obj
    [("error", Json.str "Compiler Service Authentication or API Error."),
     ("detail", Json.str ("JDoodle returned status " ++ toString status)),
     ("jdoodleError", Json.str rawBody)]

/-- An HTTP response the relay returns to the client. -/
structure RelayResponse where
  status : Nat
  body : Json

/-- server.js lines 55-81: map the outcome of the upstream call to the
client-facing response.  Non-ok upstream status gives 502 with the raw
body in `jdoodleError`; ok status with parseable JSON body passes the
parsed body through with status 200; a transport failure or a body that
fails to parse lands in the catch block, giving 500 with the fixed
generic message.  This mapping reads nothing from the request or the
environment. -/
def relayAnswer : UpstreamOutcome → RelayResponse
  | .netError => ⟨500, internalErrorBody⟩
  | .got status rawBody parsed =>
    if fetchOk status then
      match parsed with
      | some j => ⟨200, j⟩
      | none => ⟨500, internalErrorBody⟩
    else
      ⟨502, upstreamErrorBody status rawBody⟩

/-- The whole `POST /api/execute` handler (server.js lines 25-82).
Returns the payload sent upstream (`none` when validation fails and no
upstream call is made) together with the response to the client.  The
upstream outcome is an input, since the provider is external. -/
def apiExecute (env : Env) (script language : Option String)
    (up : UpstreamOutcome) : Option ExecPayload × RelayResponse :=
  if isFalsy script || isFalsy language then
    (none, ⟨400, validationBody⟩)
  else
    (some (mkExecutionPayload env (script.getD "") (language.getD "")),
     relayAnswer up)

/-! ## Client orchestrator (devratedraft/src/App.jsx) -/

/-- The single-quote character, written by code point to keep string
literals plain. -/
def singleQuote : String := String.mk [Char.ofNat 39]

/-- Characters matched by the regex class `\s` that can occur inside one
line of the buffer. -/
def isSpaceChar (c : Char) : Bool :=
  c = ' ' || c = '\t' || c = '\n' || c = '\r'

/-- JavaScript `str.split(sep)` restricted to the single-character
separator used by the source: cut at every newline, keeping empty
segments.  `""` yields `[""]`, as in JS. -/
def splitLinesAux : List Char → List Char → List String
  | [], acc => [String.mk acc.reverse]
  | '\n' :: rest, acc => String.mk acc.reverse :: splitLinesAux rest []
  | c :: rest, acc => splitLinesAux rest (c :: acc)

/-- The split of the buffer at newlines (App.jsx line 207). -/
def splitLines (s : String) : List String :=
  splitLinesAux s.toList []

/-- JavaScript `String.prototype.trim`: strip whitespace from both
ends. -/
def jsTrim (s : String) : String :=
  String.mk (((s.toList.dropWhile isSpaceChar).reverse.dropWhile isSpaceChar).reverse)

/-- JavaScript `String.prototype.startsWith`. -/
def strStartsWith (s pre : String) : Bool :=
  pre.toList.isPrefixOf s.toList

/-- JavaScript `String.prototype.endsWith`. -/
def strEndsWith (s suf : String) : Bool :=
  suf.toList.reverse.isPrefixOf s.toList.reverse

/-- Attempt the regex `print\s*\(([^)]+)\)` anchored at the head of the
character list: literal `print`, optional whitespace, an opening
parenthesis, then a nonempty run of non-`)` characters followed by `)`.
Returns the captured group. -/
def matchPrintAt : List Char → Option String
  | 'p' :: 'r' :: 'i' :: 'n' :: 't' :: rest =>
    match rest.dropWhile isSpaceChar with
    | '(' :: rest2 =>
      let content := rest2.takeWhile (fun c => c ≠ ')')
      match content, rest2.dropWhile (fun c => c ≠ ')') with
      | _ :: _, ')' :: _ => some (String.mk content)
      | _, _ => none
    | _ => none
  | _ => none

/-- Model of running the print regex against a whole line: scan left to
right for the first position where the pattern matches, returning the
captured argument text. -/
def findPrintArg : List Char → Option String
  | [] => none
  | c :: rest =>
    match matchPrintAt (c :: rest) with
    | some s => some s
    | none => findPrintArg rest

/-- JavaScript `String.prototype.substring`: indices are clamped to the
string bounds and swapped when given out of order. -/
def jsSubstring (s : String) (a b : Nat) : String :=
  String.mk ((s.toList.drop (min a b)).take (max a b - min a b))

/-- The placeholder produced when the argument-extraction regex fails
(App.jsx line 220). -/
def placeholderResult : String := "...execution result..."

/-- Header line of the simulated output (App.jsx line 225). -/
def simulatedHeader : String :=
  "--- Execution Output (Parsed Print Statements) ---"

/-- The fixed informational message returned when no print statements
are found (App.jsx lines 231-237). -/
def noOutputMessage : String :=
  "--- Execution Successful (Simulated) ---\n" ++
  "No explicit print statements found in code.\n" ++
  "This area will eventually display output from your cloud-based compiler.\n" ++
  "---------------------------------------\n" ++
  "Next Steps: Integrate AI Code Detector here."

/-- The map body of `getSimulatedOutput` (App.jsx lines 210-221): run
the regex on the line; on a match, trim the captured text and strip one
layer of surrounding double or single quotes; otherwise yield the
placeholder. -/
def extractPrintContent (line : String) : String :=
  match findPrintArg line.toList with
  | some raw =>
    let content := jsTrim raw
    if (strStartsWith content "\"" && strEndsWith content "\"") ||
       (strStartsWith content singleQuote && strEndsWith content singleQuote) then
      jsSubstring content 1 (content.toList.length - 1)
    else
      content
  | none => placeholderResult

/-- The filter predicate of `getSimulatedOutput` (App.jsx line 209). -/
def isPrintLine (line : String) : Bool :=
  strStartsWith (jsTrim line) "print(" && !(strStartsWith (jsTrim line) "#")

/-- The offline fallback renderer `getSimulatedOutput` (App.jsx lines
206-238): split the buffer into lines, keep the print lines, extract
each argument, and join under a header; with no print lines, return the
fixed informational message. -/
def getSimulatedOutput (inputCode : String) : String :=
  let lines := splitLines inputCode
  let printStatements := (lines.filter isPrintLine).map extractPrintContent
  if printStatements.length > 0 then
    String.intercalate "\n" (simulatedHeader :: printStatements)
  else
    noOutputMessage

/-- The observable effects of one invocation of the run handler: the
`(script, language)` pairs POSTed to the relay endpoint, and the texts
written to the terminal surface, in order. -/
structure RunOutcome where
  sentRequests : List (String × String)
  terminalWrites : List String
deriving DecidableEq

/-- The handler `handleRunCode` (App.jsx lines 241-253): a no-op unless `isReady`;
otherwise it writes a progress banner and, after a simulated 1-second
delay, writes `getSimulatedOutput(code)`.  The handler body contains no
network call, so the list of requests sent to the relay is empty. -/
def handleRunCode (isReady : Bool) (code : String) : RunOutcome :=
  if !isReady then ⟨[], []⟩
  else ⟨[], ["Compiling and running code...\n\n", getSimulatedOutput code]⟩

/-! ### Library-readiness polling (App.jsx lines 59-72)

The effect installs a 200ms interval timer.  Each tick checks
`window.monaco`, `window.Terminal` and `window.FitAddon`; when all three
are present it clears the interval and sets `isLoading` to false.  The
cleanup of the effect clears the interval.  A tick only runs while the timer
is active. -/

/-- State owned by the polling effect: whether the interval timer is
still installed, and the `isLoading` flag. -/
structure PollState where
  timerActive : Bool
  isLoading : Bool
deriving DecidableEq

/-- At mount the interval is installed and the loading screen shows. -/
def pollInit : PollState := ⟨true, true⟩

/-- Events acting on the polling effect: an interval tick observing the
availability of the three globals, or the effect cleanup at unmount. -/
inductive PollEvent where
  | tick (monacoReady termReady fitReady : Bool)
  | unmount
deriving DecidableEq

/-- One event step.  A tick fires only while the timer is active; a tick
observing all three libraries clears the interval and ends loading
(App.jsx lines 64-67).  The cleanup clears the interval (line 71). -/
def pollStep (s : PollState) (e : PollEvent) : PollState :=
  match e with
  | .tick m t f =>
    if s.timerActive then
      if m && t && f then ⟨false, false⟩ else s
    else s
  | .unmount => ⟨false, s.isLoading⟩

/-- Run the polling effect over a sequence of events from mount. -/
def pollRun (es : List PollEvent) : PollState :=
  es.foldl pollStep pollInit

/-! ### Editor readiness and the run affordance (App.jsx lines 151-193,
241-242, 276-282)

The Monaco-init effect runs when a mount point exists, `isReady` is
false and `isLoading` is false; it constructs the editor and schedules a
500ms settle timeout whose callback sets `isReady` to true.  Nothing
ever sets `isReady` back to false.  The `disabled` attribute of the run button
attribute is `!isReady`, and `handleRunCode` returns immediately when
`!isReady`. -/

/-- The orchestrator state relevant to run-affordance readiness. -/
structure AppState where
  isLoading : Bool
  editorConstructed : Bool
  settleTimerSet : Bool
  isReady : Bool
deriving DecidableEq

/-- Initial component state: loading, nothing constructed, not ready. -/
def appInit : AppState := ⟨true, false, false, false⟩

/-- Events acting on the orchestrator: the poll observing the libraries
(which ends loading), a run of the Monaco-init effect (with or without a
mount point present), the settle timeout firing, and a click on the run
button. -/
inductive AppEvent where
  | libsLoaded
  | editorEffect (mountPresent : Bool)
  | settleTimerFires
  | runClick
deriving DecidableEq

/-- One event step.  The Monaco-init effect constructs the editor and
schedules the settle timeout only under its guard (App.jsx line 152);
the timeout callback sets `isReady` (lines 181-183); no transition
clears `isReady`; a run click does not change this state. -/
def appStep (s : AppState) (e : AppEvent) : AppState :=
  match e with
  | .libsLoaded => { s with isLoading := false }
  | .editorEffect mountPresent =>
    if mountPresent && !s.isReady && !s.isLoading then
      { s with editorConstructed := true, settleTimerSet := true }
    else s
  | .settleTimerFires =>
    if s.settleTimerSet then
      { s with isReady := true, settleTimerSet := false }
    else s
  | .runClick => s

/-- Run the orchestrator over a sequence of events from mount. -/
def appRun (es : List AppEvent) : AppState :=
  es.foldl appStep appInit

/-- The `disabled` attribute of the run button (App.jsx line 278). -/
def runButtonDisabled (isReady : Bool) : Bool := !isReady

/-! ## Theorems settling the claims -/

/-- C2: when `script` or `language` is absent or empty, the relay
responds HTTP 400 with a JSON body carrying an error string, and no
payload is sent to the upstream provider. -/
theorem C2_validation_rejects_without_upstream (env : Env)
    (script language : Option String) (up : UpstreamOutcome)
    (h : isFalsy script = true ∨ isFalsy language = true) :
    apiExecute env script language up =
      (none,
       ⟨400, Json.obj [("error", Json.str "Missing code or language in request.")]⟩) := by
  rcases h with h | h <;> simp [apiExecute, h, validationBody]

/-- Witness for C2 at the two example calls given in the spec. -/
theorem C2_validation_witness :
    apiExecute ⟨"id", "secret"⟩ (some "") (some "python") UpstreamOutcome.netError =
      (none,
       ⟨400, Json.obj [("error", Json.str "Missing code or language in request.")]⟩) ∧
    apiExecute ⟨"id", "secret"⟩ (some "print(1)") (some "") UpstreamOutcome.netError =
      (none,
       ⟨400, Json.obj [("error", Json.str "Missing code or language in request.")]⟩) :=
  ⟨C2_validation_rejects_without_upstream ⟨"id", "secret"⟩ (some "") (some "python")
      UpstreamOutcome.netError (Or.inl rfl),
   C2_validation_rejects_without_upstream ⟨"id", "secret"⟩ (some "print(1)") (some "")
      UpstreamOutcome.netError (Or.inr rfl)⟩

/-- C3 counterexample: at a concrete failing upstream call the relay
does answer 502, but the `detail` field carries only the upstream status
line, not the raw upstream body, which lands in `jdoodleError`. -/
theorem C3_detail_counterexample :
    (apiExecute ⟨"id", "secret"⟩ (some "print(1)") (some "python")
        (UpstreamOutcome.got 401 "Invalid client credentials" none)).2.status = 502 ∧
    jsonFieldStr (apiExecute ⟨"id", "secret"⟩ (some "print(1)") (some "python")
        (UpstreamOutcome.got 401 "Invalid client credentials" none)).2.body "detail" =
      some "JDoodle returned status 401" ∧
    ¬ strContains "JDoodle returned status 401" "Invalid client credentials" :=
  ⟨rfl, rfl, by decide⟩

/-- C3 (amended): for every execute call whose upstream response has a
non-success status, the relay responds HTTP 502 with a body whose
`jdoodleError` field is the raw upstream body and whose `detail` field
reports the upstream status code. -/
theorem C3_upstream_error_mapping (env : Env) (script language : String)
    (hs : script ≠ "") (hl : language ≠ "")
    (status : Nat) (rawBody : String) (parsed : Option Json)
    (hfail : fetchOk status = false) :
    (apiExecute env (some script) (some language)
        (UpstreamOutcome.got status rawBody parsed)).2 =
      ⟨502, Json.obj
        [("error", Json.str "Compiler Service Authentication or API Error."),
         ("detail", Json.str ("JDoodle returned status " ++ toString status)),
         ("jdoodleError", Json.str rawBody)]⟩ := by
  simp [apiExecute, isFalsy, hs, hl, relayAnswer, hfail, upstreamErrorBody]

/-- Witness for the amended C3 at a concrete failing upstream call. -/
theorem C3_upstream_error_witness :
    (apiExecute ⟨"id", "secret"⟩ (some "print(1)") (some "python")
        (UpstreamOutcome.got 401 "Unauthorized" none)).2 =
      ⟨502, Json.obj
        [("error", Json.str "Compiler Service Authentication or API Error."),
         ("detail", Json.str ("JDoodle returned status " ++ toString 401)),
         ("jdoodleError", Json.str "Unauthorized")]⟩ :=
  C3_upstream_error_mapping ⟨"id", "secret"⟩ "print(1)" "python"
    (by decide) (by decide) 401 "Unauthorized" none (by decide)

/-- C4: for every execute call whose upstream response has a success
status and a JSON-parseable body, the relay responds HTTP 200 with the
parsed upstream body passed through unchanged. -/
theorem C4_success_passthrough (env : Env) (script language : String)
    (hs : script ≠ "") (hl : language ≠ "")
    (status : Nat) (rawBody : String) (j : Json)
    (hok : fetchOk status = true) :
    (apiExecute env (some script) (some language)
        (UpstreamOutcome.got status rawBody (some j))).2 = ⟨200, j⟩ := by
  simp [apiExecute, isFalsy, hs, hl, relayAnswer, hok]

/-- Witness for C4: upstream success body `{"output":"42"}` comes back
to the client unchanged with status 200. -/
theorem C4_success_witness :
    (apiExecute ⟨"id", "secret"⟩ (some "print(42)") (some "python")
        (UpstreamOutcome.got 200 "output 42 raw body"
          (some (Json.obj [("output", Json.str "42")])))).2 =
      ⟨200, Json.obj [("output", Json.str "42")]⟩ :=
  C4_success_passthrough ⟨"id", "secret"⟩ "print(42)" "python"
    (by decide) (by decide) 200 "output 42 raw body"
    (Json.obj [("output", Json.str "42")]) (by decide)

/-- C5: for every execute call where the upstream contact fails at the
transport level (network error, or a success response whose body fails
to parse as JSON), the relay responds HTTP 500 with the fixed generic
error body, which carries no detail of the underlying failure. -/
theorem C5_transport_failure_generic (env : Env) (script language : String)
    (hs : script ≠ "") (hl : language ≠ "") (up : UpstreamOutcome)
    (h : up = UpstreamOutcome.netError ∨
         ∃ status rawBody, fetchOk status = true ∧
           up = UpstreamOutcome.got status rawBody none) :
    (apiExecute env (some script) (some language) up).2 =
      ⟨500, Json.obj [("error", Json.str "Internal server error while executing code.")]⟩ := by
  rcases h with h | ⟨status, rawBody, hok, h⟩ <;> subst h <;>
    simp [apiExecute, isFalsy, hs, hl, relayAnswer, internalErrorBody]
  simp [hok]

/-- Witness for C5 at a concrete network failure and a concrete
malformed success body. -/
theorem C5_transport_failure_witness :
    (apiExecute ⟨"id", "secret"⟩ (some "print(1)") (some "python")
        UpstreamOutcome.netError).2 =
      ⟨500, Json.obj
        [("error", Json.str "Internal server error while executing code.")]⟩ ∧
    (apiExecute ⟨"id", "secret"⟩ (some "print(1)") (some "python")
        (UpstreamOutcome.got 200 "not json" none)).2 =
      ⟨500, Json.obj
        [("error", Json.str "Internal server error while executing code.")]⟩ :=
  ⟨C5_transport_failure_generic ⟨"id", "secret"⟩ "print(1)" "python"
      (by decide) (by decide) UpstreamOutcome.netError (Or.inl rfl),
   C5_transport_failure_generic ⟨"id", "secret"⟩ "print(1)" "python"
      (by decide) (by decide) (UpstreamOutcome.got 200 "not json" none)
      (Or.inr ⟨200, "not json", by decide, rfl⟩)⟩

/-- Every payload the handler sends upstream carries the credentials of
the environment, the fixed version selector "0" and empty stdin
(server.js lines 34-41). -/
lemma apiExecute_payload_fields (env : Env) (s l : Option String)
    (u : UpstreamOutcome) (p : ExecPayload)
    (h : (apiExecute env s l u).1 = some p) :
    p.clientId = env.clientId ∧ p.clientSecret = env.clientSecret ∧
    p.versionIndex = "0" ∧ p.stdin = "" := by
  unfold apiExecute at h
  by_cases hv : (isFalsy s || isFalsy l) = true
  · simp [hv] at h
  · simp [hv] at h
    simp [← h, mkExecutionPayload]

/-- The client-facing response never depends on the credential
environment: `relayAnswer` reads only the upstream outcome. -/
lemma apiExecute_snd_env_irrel (env env2 : Env) (s l : Option String)
    (u : UpstreamOutcome) :
    (apiExecute env s l u).2 = (apiExecute env2 s l u).2 := by
  unfold apiExecute
  by_cases hv : (isFalsy s || isFalsy l) = true <;> simp [hv]

/-- C6: across any two execute calls the upstream payload credential
fields, version selector and stdin are identical and come only from the
server-side environment and fixed constants; and the response returned
to the client is the same whatever the credentials are, so no credential
ever reaches a client-visible response. -/
theorem C6_credentials_fixed_and_confined (env env2 : Env)
    (s1 l1 s2 l2 : Option String) (u1 u2 : UpstreamOutcome)
    (p1 p2 : ExecPayload)
    (h1 : (apiExecute env s1 l1 u1).1 = some p1)
    (h2 : (apiExecute env s2 l2 u2).1 = some p2) :
    (p1.clientId = p2.clientId ∧ p1.clientSecret = p2.clientSecret ∧
     p1.versionIndex = p2.versionIndex ∧ p1.stdin = p2.stdin) ∧
    (p1.clientId = env.clientId ∧ p1.clientSecret = env.clientSecret ∧
     p1.versionIndex = "0" ∧ p1.stdin = "") ∧
    (apiExecute env s1 l1 u1).2 = (apiExecute env2 s1 l1 u1).2 := by
  obtain ⟨hc1, hs1, hv1, hi1⟩ := apiExecute_payload_fields env s1 l1 u1 p1 h1
  obtain ⟨hc2, hs2, hv2, hi2⟩ := apiExecute_payload_fields env s2 l2 u2 p2 h2
  refine ⟨⟨?_, ?_, ?_, ?_⟩, ⟨hc1, hs1, hv1, hi1⟩,
    apiExecute_snd_env_irrel env env2 s1 l1 u1⟩
  · rw [hc1, hc2]
  · rw [hs1, hs2]
  · rw [hv1, hv2]
  · rw [hi1, hi2]

/-- Witness for C6: two concrete calls with different scripts, languages
and upstream outcomes, and a second credential environment. -/
theorem C6_credentials_witness :
    ((mkExecutionPayload ⟨"idA", "secA"⟩ "print(1)" "python").clientSecret =
       (mkExecutionPayload ⟨"idA", "secA"⟩ "x = 2" "java").clientSecret) ∧
    (apiExecute ⟨"idA", "secA"⟩ (some "print(1)") (some "python")
        UpstreamOutcome.netError).2 =
      (apiExecute ⟨"idB", "secB"⟩ (some "print(1)") (some "python")
        UpstreamOutcome.netError).2 := by
  have h := C6_credentials_fixed_and_confined ⟨"idA", "secA"⟩ ⟨"idB", "secB"⟩
    (some "print(1)") (some "python") (some "x = 2") (some "java")
    UpstreamOutcome.netError (UpstreamOutcome.got 200 "" (some Json.null))
    (mkExecutionPayload ⟨"idA", "secA"⟩ "print(1)" "python")
    (mkExecutionPayload ⟨"idA", "secA"⟩ "x = 2" "java") rfl rfl
  exact ⟨h.1.2.1, h.2.2⟩

/-- C1 counterexample: at a concrete interactive run, the handler sends
nothing to the relay endpoint and the text rendered to the terminal is
the locally computed simulated output, not a relay response. -/
theorem C1_no_relay_request_counterexample :
    (handleRunCode true "print(1)").sentRequests = [] ∧
    (handleRunCode true "print(1)").terminalWrites =
      ["Compiling and running code...\n\n", getSimulatedOutput "print(1)"] ∧
    getSimulatedOutput "print(1)" =
      "--- Execution Output (Parsed Print Statements) ---\n1" := by
  refine ⟨rfl, rfl, by decide⟩

/-- C1 (amended): for every run triggered while the client is
interactive, the handler writes a progress banner and then renders the
locally simulated output of the current buffer; no request is sent to
the Execution Relay. -/
theorem C1_run_simulates_locally (code : String) :
    handleRunCode true code =
      ⟨[], ["Compiling and running code...\n\n", getSimulatedOutput code]⟩ := rfl

set_option maxRecDepth 4000 in
/-- C7 counterexample: on the buffer from the claim the second rendered
line is the raw expression text `2+2`, not the placeholder marker. -/
theorem C7_placeholder_counterexample :
    getSimulatedOutput "print(\"hi\")\nprint(2+2)" =
      "--- Execution Output (Parsed Print Statements) ---\nhi\n2+2" ∧
    getSimulatedOutput "print(\"hi\")\nprint(2+2)" ≠
      "--- Execution Output (Parsed Print Statements) ---\nhi\n...execution result..." := by
  constructor <;> decide

set_option maxRecDepth 4000 in
/-- C7 (amended): the offline fallback renderer on that buffer lists
`hi` for the first line and the raw expression text `2+2` for the
second, since an unquoted captured argument is returned verbatim. -/
theorem C7_expression_text_rendered :
    getSimulatedOutput "print(\"hi\")\nprint(2+2)" =
      String.intercalate "\n" [simulatedHeader, "hi", "2+2"] := by
  decide

/-- A filter whose predicate is false on every element yields `[]`. -/
lemma filter_eq_nil_of_forall {α : Type} (p : α → Bool) :
    ∀ l : List α, (∀ a ∈ l, p a = false) → l.filter p = [] := by
  intro l h
  induction l with
  | nil => rfl
  | cons a t ih =>
    have ha := h a (List.mem_cons_self a t)
    simp only [List.filter_cons, ha, Bool.false_eq_true, if_false, reduceIte]
    exact ih (fun x hx => h x (List.mem_cons_of_mem a hx))

/-- C8: on every buffer none of whose lines is a print call, the offline
fallback renderer returns the fixed informational message and never the
empty string. -/
theorem C8_no_print_fixed_message (inputCode : String)
    (h : ∀ line ∈ splitLines inputCode,
      strStartsWith (jsTrim line) "print(" = false) :
    getSimulatedOutput inputCode = noOutputMessage ∧
    getSimulatedOutput inputCode ≠ "" := by
  have hf : (splitLines inputCode).filter isPrintLine = [] := by
    apply filter_eq_nil_of_forall
    intro a ha
    simp [isPrintLine, h a ha]
  have hmain : getSimulatedOutput inputCode = noOutputMessage := by
    simp [getSimulatedOutput, hf]
  refine ⟨hmain, ?_⟩
  rw [hmain]
  decide

set_option maxRecDepth 4000 in
/-- Witness for C8 on a concrete buffer with a comment and an
assignment but no print call. -/
theorem C8_no_print_witness :
    getSimulatedOutput "x = 1\n# print(1)" = noOutputMessage ∧
    getSimulatedOutput "x = 1\n# print(1)" ≠ "" :=
  C8_no_print_fixed_message "x = 1\n# print(1)" (by decide)

/-- A cancelled poll timer stays cancelled across any further event. -/
lemma pollStep_preserves_inactive (s : PollState) (e : PollEvent)
    (h : s.timerActive = false) : (pollStep s e).timerActive = false := by
  cases e with
  | tick m t f => simp [pollStep, h]
  | unmount => simp [pollStep]

/-- A cancelled poll timer stays cancelled across any event sequence. -/
lemma pollFold_preserves_inactive (s : PollState) (es : List PollEvent)
    (h : s.timerActive = false) :
    (es.foldl pollStep s).timerActive = false := by
  induction es generalizing s with
  | nil => exact h
  | cons e rest ih => exact ih _ (pollStep_preserves_inactive s e h)

/-- A tick observing all three libraries leaves the timer cancelled. -/
lemma pollStep_ready_tick (s : PollState) :
    (pollStep s (PollEvent.tick true true true)).timerActive = false := by
  cases hs : s.timerActive <;> simp [pollStep, hs]

/-- C9: after any history, a tick observing all required libraries
leaves the poll timer cancelled, and it stays cancelled over every
subsequent event sequence; the unmount cleanup likewise cancels the
timer whatever state was reached; and a tick arriving at a cancelled
timer is a no-op, so the timer never fires again. -/
theorem C9_poll_timer_cancellation (pre post : List PollEvent)
    (loading m t f : Bool) :
    (List.foldl pollStep
      (pollStep (pollRun pre) (PollEvent.tick true true true)) post).timerActive
        = false ∧
    (List.foldl pollStep
      (pollStep (pollRun pre) PollEvent.unmount) post).timerActive = false ∧
    pollStep ⟨false, loading⟩ (PollEvent.tick m t f) = ⟨false, loading⟩ := by
  refine ⟨pollFold_preserves_inactive _ post (pollStep_ready_tick _),
          pollFold_preserves_inactive _ post (by simp [pollStep]),
          by simp [pollStep]⟩

/-- The readiness flag, once granted, survives any single event. -/
lemma appStep_ready_latch (s : AppState) (e : AppEvent)
    (h : s.isReady = true) : (appStep s e).isReady = true := by
  cases e with
  | libsLoaded => simpa [appStep] using h
  | editorEffect mountPresent => simp [appStep, h]
  | settleTimerFires =>
    cases ht : s.settleTimerSet <;> simp [appStep, ht, h]
  | runClick => simpa [appStep] using h

/-- The readiness flag can only be granted by the settle timer firing
while it is scheduled. -/
lemma appStep_ready_origin (s : AppState) (e : AppEvent)
    (h : (appStep s e).isReady = true) :
    s.isReady = true ∨ (e = AppEvent.settleTimerFires ∧ s.settleTimerSet = true) := by
  cases e with
  | libsLoaded => exact Or.inl h
  | editorEffect mountPresent =>
    left
    by_cases hc : (mountPresent && !s.isReady && !s.isLoading) = true <;>
      simpa [appStep, hc] using h
  | settleTimerFires =>
    cases ht : s.settleTimerSet with
    | true => exact Or.inr ⟨rfl, rfl⟩
    | false => exact Or.inl (by simpa [appStep, ht] using h)
  | runClick => exact Or.inl h

/-- State invariant: readiness, and a scheduled settle timer, imply the
editor widget has been constructed. -/
def readyInv (s : AppState) : Prop :=
  (s.isReady = true → s.editorConstructed = true) ∧
  (s.settleTimerSet = true → s.editorConstructed = true)

/-- One step preserves the readiness invariant. -/
lemma appStep_preserves_inv (s : AppState) (e : AppEvent) (h : readyInv s) :
    readyInv (appStep s e) := by
  obtain ⟨h1, h2⟩ := h
  cases e with
  | libsLoaded => exact ⟨h1, h2⟩
  | editorEffect mountPresent =>
    by_cases hc : (mountPresent && !s.isReady && !s.isLoading) = true <;>
      simp only [appStep, hc, if_true, if_false, reduceIte]
    · exact ⟨fun _ => rfl, fun _ => rfl⟩
    · exact ⟨h1, h2⟩
  | settleTimerFires =>
    cases ht : s.settleTimerSet with
    | true =>
      simp only [appStep, ht, if_true, reduceIte]
      exact ⟨fun _ => h2 ht, fun hx => by cases hx⟩
    | false =>
      simp only [appStep, ht, Bool.false_eq_true, if_false, reduceIte]
      exact ⟨h1, h2⟩
  | runClick => exact ⟨h1, h2⟩

/-- The readiness invariant holds along every run from mount. -/
lemma appFold_preserves_inv (s : AppState) (es : List AppEvent)
    (h : readyInv s) : readyInv (es.foldl appStep s) := by
  induction es generalizing s with
  | nil => exact h
  | cons e rest ih => exact ih _ (appStep_preserves_inv s e h)

/-- C10: along every event sequence from mount, while `isReady` is
false the run button is disabled and a run click is a complete no-op;
`isReady` can hold only once the editor has been constructed, and can
only be granted by the settle timer firing after being scheduled; and
once granted it survives every further event (a one-way latch). -/
theorem C10_interactivity_latch (es : List AppEvent) (e : AppEvent)
    (code : String) :
    ((appRun es).isReady = false →
      runButtonDisabled (appRun es).isReady = true ∧
      handleRunCode (appRun es).isReady code = ⟨[], []⟩) ∧
    ((appRun es).isReady = true → (appRun es).editorConstructed = true) ∧
    ((appStep (appRun es) e).isReady = true →
      (appRun es).isReady = true ∨
        (e = AppEvent.settleTimerFires ∧ (appRun es).settleTimerSet = true)) ∧
    ((appRun es).isReady = true → (appStep (appRun es) e).isReady = true) := by
  refine ⟨?_, ?_, appStep_ready_origin _ e, appStep_ready_latch _ e⟩
  · intro h
    rw [h]
    exact ⟨rfl, rfl⟩
  · exact (appFold_preserves_inv appInit es
      ⟨(fun hx => nomatch hx), (fun hx => nomatch hx)⟩).1

/-- Witness for C10 on the canonical trace: libraries load, the editor
effect constructs the widget, the settle timer fires; the state is then
ready with the editor constructed, and stays ready across a click. -/
theorem C10_interactivity_witness :
    (appRun [AppEvent.libsLoaded, AppEvent.editorEffect true,
             AppEvent.settleTimerFires]).editorConstructed = true ∧
    (appStep (appRun [AppEvent.libsLoaded, AppEvent.editorEffect true,
             AppEvent.settleTimerFires]) AppEvent.runClick).isReady = true :=
  ⟨(C10_interactivity_latch
      [AppEvent.libsLoaded, AppEvent.editorEffect true, AppEvent.settleTimerFires]
      AppEvent.runClick "").2.1 (by decide),
   (C10_interactivity_latch
      [AppEvent.libsLoaded, AppEvent.editorEffect true, AppEvent.settleTimerFires]
      AppEvent.runClick "").2.2.2 (by decide)⟩
